import Mathlib

/-
Shallow embedding of the SiteDoc frontend (tompltw/sitedoc-frontend).

Sources embedded here:
- src/types/index.ts (newer revision with kanban fields, src/unnamed/part_008):
  record types Issue, ChatMessage, AgentAction, WsEvent, KanbanColumn.
- src/app/(dashboard)/issues/[id]/IssueDetail.tsx: the issue-detail screen,
  its WebSocket event handler `handleWsEvent`, the initial-load effect, the
  polling fallback, the agent stall-check timer, and the WebSocket
  reconnect/backoff state machine from the connection effect.
- src/lib/api.ts: the axios response interceptor (401 logout).
- src/unnamed/part_000 (LoginPage): error-message extraction.
- src/app/(dashboard)/layout.tsx, AddSiteWizard (first definition, line 293):
  the connect-existing-site wizard (create site, then credentials, then
  health check).
- src/unnamed/part_003 (issues page): kanban board grouping.

Timestamps (JS Date / Date.now()) are modelled as Nat milliseconds.
JS strings are Lean Strings; absent/undefined values are Option.
The float `confidence_score` is modelled as an integer percentage, since
only its presence or absence matters to any behaviour proved here.
-/

namespace SiteDoc

-- ───────────────────────── §1 Data model (src/types/index.ts) ─────────────

inductive KanbanColumn
  | triage
  | ready_for_uat_approval
  | todo
  | in_progress
  | ready_for_qa
  | in_qa
  | ready_for_uat
  | done
  | dismissed
deriving DecidableEq, Repr

inductive Priority
  | low
  | medium
  | high
  | critical
deriving DecidableEq, Repr

inductive IssueStatus
  | open_
  | in_progress
  | pending_approval
  | resolved
  | dismissed
deriving DecidableEq, Repr

inductive SenderType
  | user
  | agent
  | system
deriving DecidableEq, Repr

inductive AgentRole
  | pm
  | dev
  | qa
  | tech_lead
deriving DecidableEq, Repr

/-- Issue record from src/types/index.ts.  `kanban_column` is typed
non-null there but every use site guards with `?? 'triage'`
(IssueDetail.tsx line 643, part_003 lines 73 and 297), so it is modelled
as optional, matching the runtime shape the code defends against. -/
structure Issue where
  id : String
  site_id : String
  customer_id : String
  title : String
  description : String
  status : IssueStatus
  priority : Priority
  confidence_score : Option Int
  kanban_column : Option KanbanColumn
  dev_fail_count : Nat
  ticket_number : Option Nat
  created_at : Nat
  resolved_at : Option Nat
deriving DecidableEq, Repr

structure ChatMessage where
  id : String
  issue_id : String
  sender_type : SenderType
  content : String
  agent_role : Option AgentRole
  created_at : Nat
deriving DecidableEq, Repr

structure AgentAction where
  id : String
  issue_id : String
  action_type : String
  description : String
  status : String
  error_detail : Option String
deriving DecidableEq, Repr

/-- Attachment record (declared locally in IssueDetail.tsx lines 30-39). -/
structure Attachment where
  id : String
  issue_id : String
  filename : String
  mime_type : Option String
  size_bytes : Option Nat
  uploaded_by : String
  created_at : Nat
  download_url : String
deriving DecidableEq, Repr

/-- WsEvent is `{ type: string; [key: string]: unknown }`; the fields the
handler reads are modelled explicitly, each possibly absent. -/
structure WsEvent where
  type : String
  message : Option ChatMessage
  action : Option AgentAction
  issue : Option Issue
  confidence_score : Option Int
  action_id : Option String
  error : Option String
deriving DecidableEq, Repr

-- ──────────────── §2 String helpers used by IssueDetail.tsx ───────────────

/-- The backtick character (code point 96) used by the session-key regex. -/
def backtickChar : Char := Char.ofNat 96

/-- Substring test: does `sub` occur as a contiguous run anywhere in
`hay`?  Models JS `String.prototype.includes`. -/
def containsSub (sub : List Char) : List Char → Bool
  | [] => sub.isEmpty
  | c :: rest => sub.isPrefixOf (c :: rest) || containsSub sub rest

/-- Models `content.includes(sub)`. -/
def strIncludes (s sub : String) : Bool := containsSub sub.data s.data

/-- Scan the characters after the opening backtick of a `session: ...`
marker: the regex capture `[^`]+` followed by the closing backtick.
Returns the captured key, or none if no closing backtick follows at least
one non-backtick character. -/
def scanTick (acc : List Char) : List Char → Option String
  | [] => none
  | c :: rest =>
    if c = backtickChar then
      if acc.isEmpty then none else some (String.mk acc.reverse)
    else scanTick (c :: acc) rest

/-- The literal prefix of the session-key pattern, including the opening
backtick. -/
def sessionMarker : List Char := "session: `".data

/-- Leftmost match of the regex `/session: `([^`]+)`/` over a character
list (IssueDetail.tsx lines 280 and 357). -/
def findSession : List Char → Option String
  | [] => none
  | c :: rest =>
    if sessionMarker.isPrefixOf (c :: rest) then
      match scanTick [] ((c :: rest).drop sessionMarker.length) with
      | some s => some s
      | none => findSession rest
    else findSession rest

/-- Models `msg.content.match(/session: `([^`]+)`/)`: the captured session key. -/
def extractSession (s : String) : Option String := findSession s.data

/-- Models `content.includes('✅') || content.includes('❌') ||
content.match(/QA (PASSED|FAILED)/)` — the agent-completion indicators
(IssueDetail.tsx lines 294 and 370). -/
def isCompletionMsg (content : String) : Bool :=
  strIncludes content "✅" || strIncludes content "❌" ||
    strIncludes content "QA PASSED" || strIncludes content "QA FAILED"

-- ───────────── §3 IssueDetail view state and event handling ───────────────

inductive AgentWorkStatus
  | idle
  | working
  | stalled
deriving DecidableEq, Repr

/-- The `agentStatus` state object (IssueDetail.tsx lines 229-241). -/
structure AgentStatus where
  active : Bool
  role : Option AgentRole
  sessionKey : Option String
  lastActivity : Option Nat
  status : AgentWorkStatus
deriving DecidableEq, Repr

/-- Initial `useState` value for `agentStatus`. -/
def initialAgentStatus : AgentStatus :=
  { active := false, role := none, sessionKey := none,
    lastActivity := none, status := .idle }

inductive FixKind
  | success
  | error
deriving DecidableEq, Repr

/-- State `fixBanner`: `{ type: 'success' | 'error'; message: string }`. -/
structure FixBanner where
  type : FixKind
  message : String
deriving DecidableEq, Repr

/-- The pieces of IssueDetail component state that the live-update channel,
the initial load, and the polling fallback read or write. -/
structure ViewState where
  issue : Issue
  messages : List ChatMessage
  actions : List AgentAction
  attachments : List Attachment
  loadingInitial : Bool
  diagnosisBanner : Option String
  fixBanner : Option FixBanner
  agentStatus : AgentStatus
deriving DecidableEq, Repr

/-- Asynchronous side effects issued by the event handler (the
`api.get(issue).then(setIssue)` refetches). -/
inductive Effect
  | refetchIssue
deriving DecidableEq, Repr

/-- Chat-message merge (IssueDetail.tsx lines 349-352):
`if (prev.find((m) => m.id === msg.id)) return prev; return [...prev, msg]`. -/
def mergeMessage (prev : List ChatMessage) (msg : ChatMessage) : List ChatMessage :=
  if prev.any (fun m => m.id = msg.id) then prev else prev ++ [msg]

/-- The identical dedup-merge in `sendMessage` (IssueDetail.tsx
lines 587-590), applied to the POST response message. -/
def sendMessageMerge (prev : List ChatMessage) (msg : ChatMessage) : List ChatMessage :=
  if prev.any (fun m => m.id = msg.id) then prev else prev ++ [msg]

/-- Models `prev.findIndex((a) => a.id === action.id)` as a recursive index
search. -/
def findIdxOfId (targetId : String) : List AgentAction → Option Nat
  | [] => none
  | x :: xs =>
    if x.id = targetId then some 0 else (findIdxOfId targetId xs).map (· + 1)

/-- Action merge (IssueDetail.tsx lines 399-407): replace the action with
the same id in place, or append it if absent. -/
def mergeAction (prev : List AgentAction) (a : AgentAction) : List AgentAction :=
  match findIdxOfId a.id prev with
  | some idx => prev.set idx a
  | none => prev ++ [a]

/-- Banner text for `diagnosis_ready` (IssueDetail.tsx lines 420-422); the
float percentage formatting is modelled on the integer percentage. -/
def diagnosisMessage (confidence : Option Int) : String :=
  match confidence with
  | some c => "Diagnosis complete — confidence " ++ toString c ++ "%"
  | none => "Diagnosis complete"

/-- Note: `handleWsEvent` is created by `useCallback(..., [])`: the closure is
built on the first render, so the `agentStatus.active` it reads in the
"any other agent message" branch is the initial render's value, which is
`false`.  The branch is kept, guarded by this captured constant. -/
def capturedAgentActive : Bool := false

/-- Default fix-failed banner message. -/
def fixFailedDefaultMsg : String := "Fix failed. Please check the action log."

/-- The WebSocket event dispatcher `handleWsEvent` (IssueDetail.tsx
lines 341-476).  `now` models `Date.now()` / `new Date()`.  Returns the
updated view state and the list of issued issue-refetch effects. -/
def handleWsEvent (now : Nat) (event : WsEvent) (s : ViewState) :
    ViewState × List Effect :=
  if event.type = "message" ∨ event.type = "chat_message" then
    match event.message with
    | some msg =>
      let s1 := { s with loadingInitial := false,
                         messages := mergeMessage s.messages msg }
      if msg.sender_type = .agent ∧ msg.agent_role.isSome then
        match extractSession msg.content with
        | some key =>
          ({ s1 with agentStatus :=
              { active := true, role := msg.agent_role,
                sessionKey := some key, lastActivity := some now,
                status := .working } }, [])
        | none =>
          if isCompletionMsg msg.content then
            ({ s1 with agentStatus :=
                { s1.agentStatus with active := false, status := .idle,
                                      lastActivity := some now } },
             [.refetchIssue])
          else if capturedAgentActive then
            ({ s1 with agentStatus :=
                { s1.agentStatus with lastActivity := some now } }, [])
          else (s1, [])
      else (s1, [])
    | none => (s, [])
  else if event.type = "action" ∨ event.type = "agent_action" then
    match event.action with
    | some a => ({ s with actions := mergeAction s.actions a }, [])
    | none => (s, [])
  else if event.type = "issue_updated" ∨ event.type = "status_update" then
    match event.issue with
    | some u => ({ s with issue := u }, [])
    | none => (s, [])
  else if event.type = "diagnosis_ready" then
    ({ s with diagnosisBanner := some (diagnosisMessage event.confidence_score) },
     [.refetchIssue])
  else if event.type = "action_started" then
    match event.action_id with
    | some aid =>
      let upd := s.actions.map
        (fun a => if a.id = aid then { a with status := "in_progress" } else a)
      ({ s with actions := upd }, [])
    | none => (s, [])
  else if event.type = "action_completed" then
    match event.action_id with
    | some aid =>
      let upd := s.actions.map
        (fun a => if a.id = aid then { a with status := "completed" } else a)
      ({ s with actions := upd }, [])
    | none => (s, [])
  else if event.type = "action_failed" then
    match event.action_id with
    | some aid =>
      let upd := s.actions.map
        (fun a => if a.id = aid then
            { a with status := "failed", error_detail := event.error }
          else a)
      ({ s with actions := upd }, [])
    | none => (s, [])
  else if event.type = "fix_complete" then
    ({ s with fixBanner := some { type := .success, message := "Fix applied successfully!" } },
     [.refetchIssue])
  else if event.type = "fix_failed" then
    ({ s with fixBanner := some { type := .error,
                                  message := event.error.getD fixFailedDefaultMsg } }, [])
  else (s, [])

/-- Fold a sequence of received WebSocket events (each with its arrival
time) through the handler, discarding effects. -/
def applyWsEvents (evs : List (Nat × WsEvent)) (s : ViewState) : ViewState :=
  evs.foldl (fun st p => (handleWsEvent p.1 p.2 st).1) s

/-- The event types `handleWsEvent` has a case for. -/
def recognizedTypes : List String :=
  ["message", "chat_message", "action", "agent_action", "issue_updated",
   "status_update", "diagnosis_ready", "action_started", "action_completed",
   "action_failed", "fix_complete", "fix_failed"]

-- ───────── §3a Initial load, polling tick, stall check (IssueDetail) ──────

/-- The agent-activity scan loop over recent agent messages, walking from
the newest to the oldest (IssueDetail.tsx lines 278-297).  The input list
is already reversed (newest first). -/
def scanAgentLoop (st : AgentStatus) : List ChatMessage → AgentStatus
  | [] => st
  | m :: rest =>
    match extractSession m.content with
    | some key =>
      { active := true, role := m.agent_role, sessionKey := some key,
        lastActivity := some m.created_at, status := .working }
    | none =>
      if isCompletionMsg m.content then st
      else scanAgentLoop st rest

/-- Models `msgs.filter((m) => m.sender_type === 'agent' && m.agent_role).slice(-5)`
iterated from the last element backwards. -/
def recentAgentMsgsRev (msgs : List ChatMessage) : List ChatMessage :=
  ((msgs.filter (fun m => m.sender_type = .agent ∧ m.agent_role.isSome)).reverse).take 5

/-- The initial-load effect body (IssueDetail.tsx lines 260-303): on
success set the three snapshots, clear `loadingInitial`, and scan for an
active agent; the catch block leaves all state unchanged so the loading
flag stays set. -/
def initialLoad
    (result : Option (List ChatMessage × List AgentAction × List Attachment))
    (s : ViewState) : ViewState :=
  match result with
  | none => s
  | some (msgs, acts, atts) =>
    { s with messages := msgs, actions := acts, attachments := atts,
             loadingInitial := false,
             agentStatus := scanAgentLoop s.agentStatus (recentAgentMsgsRev msgs) }

/-- One polling-fallback tick (IssueDetail.tsx lines 490-498): fetch the
messages, set them and clear the loading flag, then fetch the issue
snapshot; any failure is swallowed, and a failure of the second fetch
still keeps the first fetch's updates. -/
def pollTick (msgsRes : Option (List ChatMessage)) (issueRes : Option Issue)
    (s : ViewState) : ViewState :=
  match msgsRes with
  | none => s
  | some msgs =>
    let s1 := { s with messages := msgs, loadingInitial := false }
    match issueRes with
    | none => s1
    | some iss => { s1 with issue := iss }

/-- 45 minutes in milliseconds (IssueDetail.tsx line 249). -/
def stallThresholdMs : Nat := 45 * 60 * 1000

/-- The stall-check interval period (IssueDetail.tsx line 254). -/
def stallCheckPeriodMs : Nat := 60000

/-- One firing of the periodic stall-check timer (IssueDetail.tsx
lines 245-254). -/
def stallCheck (now : Nat) (st : AgentStatus) : AgentStatus :=
  if st.active then
    match st.lastActivity with
    | some t =>
      if now - t > stallThresholdMs then { st with status := .stalled } else st
    | none => st
  else st

-- ───────── §4 WebSocket reconnect/backoff channel (IssueDetail.tsx) ───────

/-- State of the per-issue WebSocket connection.  Per the WebSocket
protocol, the `error` event fires only as part of the closing procedure,
so an errored socket is modelled as disconnected. -/
inductive WsConn
  | disconnected
  | connecting
  | opened
deriving DecidableEq, Repr

/-- The local variables of the connection effect (IssueDetail.tsx
lines 483-486): `pollInterval`, `reconnectTimeout` (recorded with the
delay it was armed with), `reconnectDelay`, `destroyed`, plus the socket
status. -/
structure ChannelState where
  conn : WsConn
  pollActive : Bool
  reconnectDelay : Nat
  reconnectScheduled : Option Nat
  destroyed : Bool
deriving DecidableEq, Repr

/-- The polling interval period (IssueDetail.tsx line 498). -/
def pollIntervalMs : Nat := 3000

/-- Models `startPolling` (lines 488-499): idempotent — a second call while the
interval is live returns immediately. -/
def startPolling (s : ChannelState) : ChannelState :=
  if s.pollActive then s else { s with pollActive := true }

/-- Models `stopPolling` (lines 501-503). -/
def stopPolling (s : ChannelState) : ChannelState :=
  { s with pollActive := false }

/-- Models `connect` (lines 505-512): a torn-down effect does nothing; without a
token it only starts polling; with a token it opens a socket. -/
def connect (token : Option String) (s : ChannelState) : ChannelState :=
  if s.destroyed then s
  else
    match token with
    | none => startPolling s
    | some _ => { s with conn := .connecting }

/-- Events delivered to the connection effect's handlers and timers. -/
inductive ChanEvent
  | wsOpened
  | wsError
  | wsClosed
  | timerFired
  | teardown
deriving DecidableEq, Repr

/-- One step of the connection effect.  Socket events on a nonexistent
socket are no-ops.
- `ws.onopen` (lines 514-517): stop polling, reset the backoff to 1000 ms.
- `ws.onerror` (line 528): start polling; no reconnect is scheduled here.
- `ws.onclose` (lines 530-539): unless torn down, start polling and arm
  the reconnect timer with the current delay.
- reconnect timer body (lines 535-538): double the delay (capped at
  30000 ms), then reconnect.
- effect cleanup (lines 546-551): close everything. -/
def chanStep (e : ChanEvent) (token : Option String) (s : ChannelState) :
    ChannelState :=
  match e with
  | .wsOpened =>
    if s.conn = .disconnected then s
    else { s with conn := .opened, pollActive := false, reconnectDelay := 1000 }
  | .wsError =>
    if s.conn = .disconnected then s
    else startPolling { s with conn := .disconnected }
  | .wsClosed =>
    if s.conn = .disconnected then s
    else
      let s1 : ChannelState := { s with conn := .disconnected }
      if s1.destroyed then s1
      else { startPolling s1 with reconnectScheduled := some s1.reconnectDelay }
  | .timerFired =>
    match s.reconnectScheduled with
    | none => s
    | some _ =>
      connect token
        { s with reconnectScheduled := none,
                 reconnectDelay := min (s.reconnectDelay * 2) 30000 }
  | .teardown =>
    { s with destroyed := true, conn := .disconnected,
             reconnectScheduled := none, pollActive := false }

/-- Effect mount (lines 542-544): `startPolling(); connect();` from the
initial local-variable values (line 483-486). -/
def mountChannel (token : Option String) : ChannelState :=
  connect token
    (startPolling
      { conn := .disconnected, pollActive := false, reconnectDelay := 1000,
        reconnectScheduled := none, destroyed := false })

/-- Channel states reachable from a mount by any event sequence. -/
inductive ChanReachable : ChannelState → Prop
  | mount (token : Option String) : ChanReachable (mountChannel token)
  | step (e : ChanEvent) (token : Option String) {s : ChannelState} :
      ChanReachable s → ChanReachable (chanStep e token s)

/-- Inductive invariant: polling never runs on an open socket, and a
pending reconnect timer implies the socket is gone. -/
def ChanInv (s : ChannelState) : Prop :=
  (s.conn = .opened → s.pollActive = false) ∧
    (s.reconnectScheduled.isSome → s.conn = .disconnected)

-- ───────────── §5 REST error handling (src/lib/api.ts and call sites) ─────

/-- The browser-global state the 401 interceptor touches: the stored
bearer token (`localStorage sitedoc_token`) and `window.location.href`. -/
structure BrowserState where
  token : Option String
  location : String
deriving DecidableEq, Repr

/-- The axios response interceptor's rejection branch (src/lib/api.ts
lines 28-39): a 401 removes the token and redirects to the login page;
everything else passes through untouched. -/
def responseInterceptorError (status : Option Nat) (b : BrowserState) :
    BrowserState :=
  if status = some 401 then { b with token := none, location := "/login" }
  else b

/-- A server error body's `detail` field, which is `unknown`: absent, a
string, or some non-string value. -/
inductive ErrDetail
  | str (s : String)
  | nonStr
deriving DecidableEq, Repr

/-- Error message shown by `transition` (IssueDetail.tsx lines 634-636):
the server-provided detail when it is a string, else the generic text. -/
def transitionErrorMessage (d : Option ErrDetail) : String :=
  match d with
  | some (.str s) => s
  | _ => "Action failed. Please try again."

/-- JS `a || b` on an optional string (empty strings are falsy). -/
def jsOr (a : Option String) (b : String) : String :=
  match a with
  | some s => if s = "" then b else s
  | none => b

/-- LoginPage error extraction (src/unnamed/part_000 lines 24-35):
`data.message || data.detail || (err instanceof Error ? err.message :
fallback)`. -/
def loginErrorMessage (msgField detailField errMsg : Option String) : String :=
  let message := errMsg.getD "Invalid email or password. Please try again."
  jsOr msgField (jsOr detailField message)

-- ──────── §6 AddSiteWizard (src/app/(dashboard)/layout.tsx line 293) ──────

inductive WizStep
  | url
  | method
  | ssh
  | plugin
  | more_creds
  | testing
  | wizdone
deriving DecidableEq, Repr

inductive ConnectMethod
  | ssh
  | plugin
deriving DecidableEq, Repr

/-- The optional-credentials form state (`MoreCredsState`, layout.tsx
lines 182-210). -/
structure MoreCredsState where
  wpAdminEnabled : Bool
  wpAdminUrl : String
  wpAdminUsername : String
  wpAdminPassword : String
  ftpEnabled : Bool
  ftpHost : String
  ftpUser : String
  ftpPassword : String
  ftpPort : String
  dbEnabled : Bool
  dbHost : String
  dbUser : String
  dbPassword : String
  dbName : String
  dbPort : String
  cpanelEnabled : Bool
  cpanelUrl : String
  cpanelUsername : String
  cpanelPassword : String
  wpAppEnabled : Bool
  wpAppUsername : String
  wpAppPassword : String
deriving DecidableEq, Repr

/-- The wizard's accumulated local state: `step`, `WizardState`
(layout.tsx lines 172-180), the extra-credentials form, and the inline
error. -/
structure WizardState where
  step : WizStep
  url : String
  name : String
  method : Option ConnectMethod
  sshHost : String
  sshUser : String
  sshPassword : String
  siteId : String
  error : String
  moreCreds : MoreCredsState
deriving DecidableEq, Repr

/-- API calls the wizard issues, in order. -/
inductive ApiCall
  | createSite (url name : String)
  | saveCredential (siteId credType : String)
  | healthCheck (siteId : String)
deriving DecidableEq, Repr

/-- JS whitespace characters relevant to `trim()`. -/
def isWsChar (c : Char) : Bool :=
  c = ' ' ∨ c = '\t' ∨ c = '\n' ∨ c = '\r'

/-- Models `String.prototype.trim`: strip whitespace from both ends. -/
def jsTrim (s : String) : String :=
  String.mk ((((s.data.dropWhile isWsChar).reverse).dropWhile isWsChar).reverse)

/-- Models `String.prototype.startsWith`. -/
def strStarts (s p : String) : Bool := p.data.isPrefixOf s.data

/-- Models `new URL(url).hostname` for ordinary http(s) URLs. -/
def hostnameOf (url : String) : String :=
  let rest :=
    if strStarts url "https://" then url.data.drop 8
    else if strStarts url "http://" then url.data.drop 7
    else url.data
  String.mk (rest.takeWhile (fun c => c ≠ '/' ∧ c ≠ ':'))

/-- Step 1 handler `handleUrlNext` (layout.tsx lines 337-360): validate,
normalize the URL, derive the display name, POST the site; on success
record the created site id, prefill the WP-admin URL and advance; on
failure show the extracted or generic inline error and stay on the step.
`res` is the outcome of the create call: the new site id, or the server's
`detail` message when it was a string. -/
def handleUrlNext (res : Except (Option String) String) (s : WizardState) :
    WizardState × List ApiCall :=
  let s0 := { s with error := "" }
  if jsTrim s0.url = "" then ({ s0 with error := "URL is required" }, [])
  else
    let url := if strStarts (jsTrim s0.url) "http" then jsTrim s0.url
               else "https://" ++ jsTrim s0.url
    let name := if jsTrim s0.name = "" then hostnameOf url else jsTrim s0.name
    let s1 := { s0 with url := url, name := name }
    match res with
    | .ok siteId =>
      ({ s1 with siteId := siteId,
                 moreCreds := { s1.moreCreds with wpAdminUrl := url },
                 step := .method }, [.createSite url name])
    | .error m =>
      ({ s1 with error := jsOr m "Could not create site. Check the URL and try again." },
       [.createSite url name])

/-- Step 3 handler `handleSSHNext` (layout.tsx lines 363-389). -/
def handleSSHNext (res : Except (Option String) Unit) (s : WizardState) :
    WizardState × List ApiCall :=
  let s0 := { s with error := "" }
  if s0.sshHost = "" ∨ s0.sshUser = "" ∨ s0.sshPassword = "" then
    ({ s0 with error := "All SSH fields are required" }, [])
  else
    match res with
    | .ok _ => ({ s0 with step := .more_creds }, [.saveCredential s0.siteId "ssh"])
    | .error m =>
      ({ s0 with error := jsOr m "Could not save credentials" },
       [.saveCredential s0.siteId "ssh"])

/-- The conditional extra-credential saves (layout.tsx lines 395-426), in
source order. -/
def credTasks (mc : MoreCredsState) (siteId : String) : List ApiCall :=
  (if mc.wpAdminEnabled ∧ mc.wpAdminUsername ≠ "" ∧ mc.wpAdminPassword ≠ "" then
    [ApiCall.saveCredential siteId "wp_admin"] else []) ++
  (if mc.ftpEnabled ∧ mc.ftpHost ≠ "" ∧ mc.ftpUser ≠ "" ∧ mc.ftpPassword ≠ "" then
    [ApiCall.saveCredential siteId "ftp"] else []) ++
  (if mc.dbEnabled ∧ mc.dbHost ≠ "" ∧ mc.dbUser ≠ "" ∧ mc.dbPassword ≠ "" then
    [ApiCall.saveCredential siteId "database"] else []) ++
  (if mc.cpanelEnabled ∧ mc.cpanelUrl ≠ "" ∧ mc.cpanelUsername ≠ "" ∧ mc.cpanelPassword ≠ "" then
    [ApiCall.saveCredential siteId "cpanel"] else []) ++
  (if mc.wpAppEnabled ∧ mc.wpAppUsername ≠ "" ∧ mc.wpAppPassword ≠ "" then
    [ApiCall.saveCredential siteId "wp_app_password"] else [])

/-- Models `runHealthCheck` (layout.tsx lines 441-450): show the testing step,
POST the health check (its failure is caught and ignored as non-fatal),
then land on the done step regardless. -/
def runHealthCheck (s : WizardState) : WizardState × List ApiCall :=
  ({ s with step := .wizdone }, [ApiCall.healthCheck s.siteId])

/-- Step 4 handler `handleMoreCredsNext` (layout.tsx lines 392-439): fire
the enabled credential saves; if all succeed move to testing and run the
health check, otherwise surface the inline error and stay on the step. -/
def handleMoreCredsNext (res : Except (Option String) Unit) (s : WizardState) :
    WizardState × List ApiCall :=
  let s0 := { s with error := "" }
  let tasks := credTasks s0.moreCreds s0.siteId
  match res with
  | .ok _ =>
    let p := runHealthCheck { s0 with step := .testing }
    (p.1, tasks ++ p.2)
  | .error m =>
    ({ s0 with error := jsOr m "Could not save some credentials" }, tasks)

-- ─────────── §7 Kanban board grouping (src/unnamed/part_003) ──────────────

/-- Models `i.kanban_column ?? 'triage'` (part_003 line 73, line 297). -/
def effectiveColumn (i : Issue) : KanbanColumn := i.kanban_column.getD .triage

/-- Models `grouped` (part_003 lines 72-73): the issues shown in one column. -/
def grouped (issues : List Issue) (col : KanbanColumn) : List Issue :=
  issues.filter (fun i => effectiveColumn i = col)

/-- The board's eight columns (`KANBAN_COLUMNS`, part_003 lines 12-21);
`dismissed` has no column. -/
def boardColumns : List KanbanColumn :=
  [.triage, .ready_for_uat_approval, .todo, .in_progress,
   .ready_for_qa, .in_qa, .ready_for_uat, .done]

/-- The site filter (part_003 lines 292-294); the empty string means no
filter. -/
def siteFiltered (filterSite : String) (issues : List Issue) : List Issue :=
  if filterSite = "" then issues
  else issues.filter (fun i => i.site_id = filterSite)

/-- Models `activeIssues` (part_003 line 297): dismissed issues are excluded from
the kanban board and shown only in the list view. -/
def activeIssues (issues : List Issue) : List Issue :=
  issues.filter (fun i => effectiveColumn i ≠ .dismissed)

/-- The issues the kanban view renders: the site-filtered list with
dismissed issues removed (part_003 lines 292-297 and 374). -/
def boardIssues (filterSite : String) (issues : List Issue) : List Issue :=
  activeIssues (siteFiltered filterSite issues)

-- ──────────────── §7a Silent-failure call sites (C5) ──────────────────────

/-- Site record from src/types/index.ts. -/
structure Site where
  id : String
  customer_id : String
  url : String
  name : String
  status : String
  last_health_check : Option Nat
  created_at : Nat
deriving DecidableEq, Repr

/-- The chat-composer slice of IssueDetail state touched by `sendMessage`,
carried together with the component's two inline error strings
(`actionError`, `attachmentError`), which that handler never writes. -/
structure SendMsgState where
  messages : List ChatMessage
  newMessage : String
  actionError : String
  attachmentError : String
deriving DecidableEq, Repr

/-- Models `sendMessage` (IssueDetail.tsx lines 579-597): an empty draft
returns immediately; on success the response message is dedup-merged and
the draft cleared; on failure the catch block shows nothing — the message
fails silently and no inline error is set. -/
def sendMessage (res : Option ChatMessage) (s : SendMsgState) : SendMsgState :=
  if jsTrim s.newMessage = "" then s
  else
    match res with
    | some msg =>
      { s with messages := sendMessageMerge s.messages msg, newMessage := "" }
    | none => s

/-- The issues-page list state (part_003 lines 265-267). -/
structure IssuesPageState where
  issues : List Issue
  sites : List Site
  loading : Bool
deriving DecidableEq, Repr

/-- Models the issues-page initial load (part_003 lines 272-280): a
promise-join with a then and a finally but no catch — a failure clears
only the loading flag and surfaces no message anywhere. -/
def issuesPageLoad (res : Option (List Issue × List Site)) (s : IssuesPageState) :
    IssuesPageState :=
  match res with
  | none => { s with loading := false }
  | some (iss, sts) => { s with issues := iss, sites := sts, loading := false }

-- ──────────────────── §8 Id-uniqueness predicates ─────────────────────────

/-- The message list holds no two entries with the same id. -/
def msgIdsNodup (s : ViewState) : Prop :=
  (s.messages.map (fun m => m.id)).Nodup

/-- The action list holds no two entries with the same id. -/
def actIdsNodup (s : ViewState) : Prop :=
  (s.actions.map (fun a => a.id)).Nodup

-- ─────────────── §9 Concrete values used by witnesses ─────────────────────

/-- A sample issue. -/
def exIssue : Issue :=
  { id := "i1", site_id := "s1", customer_id := "c1", title := "t",
    description := "d", status := .open_, priority := .medium,
    confidence_score := none, kanban_column := some .in_progress,
    dev_fail_count := 0, ticket_number := some 1, created_at := 0,
    resolved_at := none }

/-- A sample dismissed issue. -/
def exDismissed : Issue :=
  { exIssue with id := "i2", kanban_column := some .dismissed }

/-- A sample issue with a null kanban column. -/
def exNullCol : Issue :=
  { exIssue with id := "i3", kanban_column := none }

/-- A sample chat message. -/
def exMsg : ChatMessage :=
  { id := "m1", issue_id := "i1", sender_type := .user, content := "hello",
    agent_role := none, created_at := 5 }

/-- A second sample chat message. -/
def exMsg2 : ChatMessage :=
  { id := "m2", issue_id := "i1", sender_type := .agent, content := "hi",
    agent_role := some .pm, created_at := 6 }

/-- A sample agent action. -/
def exAction : AgentAction :=
  { id := "a1", issue_id := "i1", action_type := "fix", description := "x",
    status := "pending", error_detail := none }

/-- A freshly mounted IssueDetail view state (all `useState` initials,
with the server-rendered issue prop). -/
def exViewState : ViewState :=
  { issue := exIssue, messages := [], actions := [], attachments := [],
    loadingInitial := true, diagnosisBanner := none, fixBanner := none,
    agentStatus := initialAgentStatus }

/-- A `diagnosis_ready` event with every payload field absent. -/
def exDiagEvent : WsEvent :=
  { type := "diagnosis_ready", message := none, action := none,
    issue := none, confidence_score := none, action_id := none,
    error := none }

/-- A `chat_message` event carrying `exMsg`. -/
def exChatEvent : WsEvent :=
  { type := "chat_message", message := some exMsg, action := none,
    issue := none, confidence_score := none, action_id := none,
    error := none }

/-- An `agent_action` event carrying `exAction`. -/
def exActionEvent : WsEvent :=
  { type := "agent_action", message := none, action := some exAction,
    issue := none, confidence_score := none, action_id := none,
    error := none }

/-- An event with an unrecognized type tag. -/
def exUnknownEvent : WsEvent :=
  { type := "mystery", message := some exMsg, action := some exAction,
    issue := some exIssue, confidence_score := some 50,
    action_id := some "a1", error := some "boom" }

/-- The channel state right after a successful connect: reachable as
mount followed by the open event. -/
def exConnected : ChannelState :=
  chanStep .wsOpened (some "tok") (mountChannel (some "tok"))

/-- A sample browser state with a stored token. -/
def exBrowser : BrowserState := { token := some "tok", location := "/issues" }

/-- A chat composer with a non-empty draft and no inline errors shown. -/
def exSendState : SendMsgState :=
  { messages := [exMsg], newMessage := "help", actionError := "",
    attachmentError := "" }

/-- An extra-credentials form with everything disabled. -/
def exMoreCreds : MoreCredsState :=
  { wpAdminEnabled := false, wpAdminUrl := "", wpAdminUsername := "",
    wpAdminPassword := "", ftpEnabled := false, ftpHost := "", ftpUser := "",
    ftpPassword := "", ftpPort := "21", dbEnabled := false, dbHost := "",
    dbUser := "", dbPassword := "", dbName := "", dbPort := "3306",
    cpanelEnabled := false, cpanelUrl := "", cpanelUsername := "",
    cpanelPassword := "", wpAppEnabled := false, wpAppUsername := "",
    wpAppPassword := "" }

/-- A wizard on the first step with a URL typed in. -/
def exWizard : WizardState :=
  { step := .url, url := "example.com", name := "", method := none,
    sshHost := "h", sshUser := "root", sshPassword := "pw", siteId := "",
    error := "", moreCreds := exMoreCreds }

/-- An active agent status last seen at time 0. -/
def exAgentWorking : AgentStatus :=
  { active := true, role := some .dev, sessionKey := some "k",
    lastActivity := some 0, status := .working }

-- ══════════════════════════ Theorems ══════════════════════════════════════

-- ─────────────────────── Channel invariant lemmas ─────────────────────────

theorem chanInv_mount (token : Option String) : ChanInv (mountChannel token) := by
  cases token <;>
    simp [mountChannel, connect, startPolling, ChanInv]

theorem chanInv_step (e : ChanEvent) (token : Option String) {s : ChannelState}
    (h : ChanInv s) : ChanInv (chanStep e token s) := by
  obtain ⟨h1, h2⟩ := h
  obtain ⟨conn, poll, delay, sched, destr⟩ := s
  simp only [ChanInv] at h1 h2 ⊢
  cases e <;> cases conn <;> cases destr <;> cases poll <;> cases sched <;>
    cases token <;>
    simp_all [chanStep, startPolling, connect]

theorem chanReachable_inv {s : ChannelState} (h : ChanReachable s) : ChanInv s := by
  induction h with
  | mount token => exact chanInv_mount token
  | step e token _ ih => exact chanInv_step e token ih

-- ─────────────────────────── Claim theorems ───────────────────────────────

/-- C7: the stall-check timer fires every 60000 ms; when the agent is
active and the elapsed time since its last activity exceeds the 45-minute
(2700000 ms) threshold, its status is flagged stalled; an active agent
within the threshold is left untouched. -/
theorem stall_check_flags_stalled_agent (now t : Nat) (st : AgentStatus) :
    stallThresholdMs = 2700000 ∧ stallCheckPeriodMs = 60000 ∧
    (st.active = true → st.lastActivity = some t → now - t > 2700000 →
      (stallCheck now st).status = .stalled) ∧
    (st.active = true → st.lastActivity = some t → now - t ≤ 2700000 →
      stallCheck now st = st) := by
  refine ⟨rfl, rfl, fun ha hl hgt => ?_, fun ha hl hle => ?_⟩
  · have hthr : stallThresholdMs < now - t := by
      simpa [stallThresholdMs] using hgt
    simp [stallCheck, ha, hl, hthr]
  · have hthr : ¬ stallThresholdMs < now - t := by
      simp only [stallThresholdMs]
      omega
    simp [stallCheck, ha, hl, hthr]

/-- Witness for C7 at concrete times. -/
theorem stall_check_flags_stalled_agent_witness :
    (stallCheck 3000000 exAgentWorking).status = .stalled ∧
    stallCheck 100 exAgentWorking = exAgentWorking :=
  ⟨(stall_check_flags_stalled_agent 3000000 0 exAgentWorking).2.2.1
      (by decide) (by decide) (by decide),
   (stall_check_flags_stalled_agent 100 0 exAgentWorking).2.2.2
      (by decide) (by decide) (by decide)⟩

/-- C5 counterexample: a failing send-message POST is caught at the call
site and converted to no user-facing message at all — the state,
including both inline error strings, is exactly as before — refuting the
claim that every failing REST call yields a user-facing inline message. -/
theorem send_message_failure_shows_nothing :
    sendMessage none exSendState = exSendState ∧
    (sendMessage none exSendState).actionError = "" ∧
    (sendMessage none exSendState).attachmentError = "" := by
  refine ⟨?_, ?_, ?_⟩ <;> decide

/-- C5 (amended): exactly one error kind is distinguished — a response
with HTTP status 401 removes the stored bearer token and redirects to the
login page, while every other error passes through to the call site;
call sites that surface a failure show the server-provided detail string
when one is present and a generic message otherwise; but not every
failing call is surfaced: a failed chat send, a failed poll tick, and a
failed issues-page load are deliberately silent. -/
theorem unauthorized_logout_and_generic_errors :
    (∀ b, responseInterceptorError (some 401) b =
      { token := none, location := "/login" }) ∧
    (∀ st b, st ≠ some 401 → responseInterceptorError st b = b) ∧
    (∀ d, transitionErrorMessage (some (.str d)) = d) ∧
    transitionErrorMessage none = "Action failed. Please try again." ∧
    transitionErrorMessage (some .nonStr) = "Action failed. Please try again." ∧
    (∀ m df e, m ≠ "" → loginErrorMessage (some m) df e = m) ∧
    (∀ d e, d ≠ "" → loginErrorMessage none (some d) e = d) ∧
    loginErrorMessage none none none = "Invalid email or password. Please try again." ∧
    (∀ s, sendMessage none s = s) ∧
    (∀ ir vs, pollTick none ir vs = vs) ∧
    (∀ ps, issuesPageLoad none ps = { ps with loading := false }) := by
  refine ⟨fun b => rfl, fun st b hne => ?_, fun d => rfl, rfl, rfl,
    fun m df e hm => ?_, fun d e hd => ?_, rfl, fun s => ?_, fun ir vs => rfl,
    fun ps => rfl⟩
  · simp [responseInterceptorError, hne]
  · simp [loginErrorMessage, jsOr, hm]
  · simp [loginErrorMessage, jsOr, hd]
  · unfold sendMessage
    split <;> rfl

/-- Witness for C5 at concrete inputs. -/
theorem unauthorized_logout_witness :
    responseInterceptorError (some 401) exBrowser =
      { token := none, location := "/login" } ∧
    responseInterceptorError (some 500) exBrowser = exBrowser ∧
    transitionErrorMessage (some (.str "Invalid transition")) = "Invalid transition" ∧
    loginErrorMessage (some "Bad credentials") none none = "Bad credentials" ∧
    sendMessage none exSendState = exSendState :=
  ⟨unauthorized_logout_and_generic_errors.1 exBrowser,
   unauthorized_logout_and_generic_errors.2.1 (some 500) exBrowser (by decide),
   unauthorized_logout_and_generic_errors.2.2.1 "Invalid transition",
   unauthorized_logout_and_generic_errors.2.2.2.2.2.1 "Bad credentials" none none
     (by decide),
   unauthorized_logout_and_generic_errors.2.2.2.2.2.2.2.2.1 exSendState⟩

/-- C2: the mount-time load (run once per mount by the effect keyed on the
issue id) clears the loading flag only on success — a failed fetch leaves
the whole state, flag included, untouched — and the flag is also cleared
by a live chat-message event and by a successful poll tick. -/
theorem loading_flag_cleared_only_on_data :
    (∀ s, initialLoad none s = s) ∧
    (∀ r s, (initialLoad (some r) s).loadingInitial = false) ∧
    (∀ now ev m s, ev.type = "message" ∨ ev.type = "chat_message" →
      ev.message = some m → (handleWsEvent now ev s).1.loadingInitial = false) ∧
    (∀ msgs ir s, (pollTick (some msgs) ir s).loadingInitial = false) ∧
    (∀ ir s, pollTick none ir s = s) := by
  refine ⟨fun s => rfl, fun r s => ?_, fun now ev m s h hm => ?_,
    fun msgs ir s => ?_, fun ir s => rfl⟩
  · obtain ⟨msgs, acts, atts⟩ := r
    rfl
  · unfold handleWsEvent
    rw [if_pos h, hm]
    repeat' split
    all_goals simp_all
  · unfold pollTick
    cases ir <;> rfl

/-- Witness for C2 at concrete inputs. -/
theorem loading_flag_witness :
    initialLoad none exViewState = exViewState ∧
    (initialLoad (some ([exMsg], [exAction], [])) exViewState).loadingInitial = false ∧
    (handleWsEvent 7 exChatEvent exViewState).1.loadingInitial = false ∧
    (pollTick (some [exMsg]) none exViewState).loadingInitial = false :=
  ⟨loading_flag_cleared_only_on_data.1 exViewState,
   loading_flag_cleared_only_on_data.2.1 ([exMsg], [exAction], []) exViewState,
   loading_flag_cleared_only_on_data.2.2.1 7 exChatEvent exMsg exViewState
     (Or.inr rfl) rfl,
   loading_flag_cleared_only_on_data.2.2.2.1 [exMsg] none exViewState⟩

/-- C4: a successful connect (open event on a live socket) cancels any
active polling fallback and resets the backoff to its 1000 ms floor, and
in every reachable channel state the polling timer is inactive while the
socket is open. -/
theorem open_cancels_polling_and_resets_backoff :
    (∀ tok s, s.conn ≠ .disconnected →
      (chanStep .wsOpened tok s).pollActive = false ∧
      (chanStep .wsOpened tok s).reconnectDelay = 1000) ∧
    (∀ s, ChanReachable s → s.conn = .opened → s.pollActive = false) := by
  constructor
  · intro tok s hs
    simp [chanStep, hs]
  · intro s hr hopen
    exact (chanReachable_inv hr).1 hopen

/-- Witness for C4: a freshly opened channel after mount. -/
theorem open_cancels_polling_witness :
    (chanStep .wsOpened (some "tok") (mountChannel (some "tok"))).reconnectDelay = 1000 ∧
    exConnected.pollActive = false :=
  ⟨(open_cancels_polling_and_resets_backoff.1 (some "tok")
      (mountChannel (some "tok")) (by decide)).2,
   open_cancels_polling_and_resets_backoff.2 exConnected
     (ChanReachable.step .wsOpened (some "tok") (ChanReachable.mount (some "tok")))
     (by decide)⟩

/-- C1 counterexample: in the connected state reached right after a
successful open, a WebSocket error event starts the polling fallback but
schedules no reconnect attempt — the reconnect timer is armed only by the
close handler — refuting the claim that every error event also schedules
a reconnect. -/
theorem error_event_schedules_no_reconnect :
    (chanStep .wsError (some "tok") exConnected).pollActive = true ∧
    (chanStep .wsError (some "tok") exConnected).reconnectScheduled = none := by
  decide

/-- C1 (amended): an error event starts the polling fallback (leaving the
reconnect timer as it was); a close event on a live, not-torn-down
channel starts polling and arms the reconnect timer with the current
delay; when that timer fires the delay doubles, capped at 30000 ms; a
successful open resets the delay to its 1000 ms floor; and the polling
fallback is the fixed 3000 ms interval re-fetch of the messages plus the
issue snapshot. -/
theorem backoff_bounded_reset_on_open (tok : Option String) (s : ChannelState) :
    (s.conn ≠ .disconnected →
      (chanStep .wsError tok s).pollActive = true ∧
      (chanStep .wsError tok s).reconnectScheduled = s.reconnectScheduled) ∧
    (s.conn ≠ .disconnected → ¬s.destroyed →
      (chanStep .wsClosed tok s).pollActive = true ∧
      (chanStep .wsClosed tok s).reconnectScheduled = some s.reconnectDelay) ∧
    (∀ d, s.reconnectScheduled = some d →
      (chanStep .timerFired tok s).reconnectDelay = min (s.reconnectDelay * 2) 30000 ∧
      (chanStep .timerFired tok s).reconnectDelay ≤ 30000) ∧
    (s.conn ≠ .disconnected → (chanStep .wsOpened tok s).reconnectDelay = 1000) ∧
    (∀ msgs iss vs, (pollTick (some msgs) (some iss) vs).messages = msgs ∧
      (pollTick (some msgs) (some iss) vs).issue = iss) ∧
    pollIntervalMs = 3000 := by
  refine ⟨fun hc => ?_, fun hc hd => ?_, fun d hd => ?_, fun hc => ?_,
    fun msgs iss vs => ⟨rfl, rfl⟩, rfl⟩
  · simp only [chanStep, startPolling]
    rw [if_neg hc]
    constructor <;> split <;> simp_all
  · simp only [chanStep, startPolling]
    rw [if_neg hc]
    constructor <;> (repeat' split) <;> simp_all
  · have hmin : min (s.reconnectDelay * 2) 30000 ≤ 30000 := Nat.min_le_right _ _
    simp only [chanStep, hd, connect, startPolling]
    constructor <;> (repeat' split) <;> simp_all
  · simp [chanStep, hc]

/-- Witness for C1 (amended) at the connected example state and a state
with a pending timer. -/
theorem backoff_bounded_witness :
    (chanStep .wsError (some "tok") exConnected).pollActive = true ∧
    (chanStep .wsClosed (some "tok") exConnected).reconnectScheduled = some 1000 ∧
    (chanStep .timerFired (some "tok")
      (chanStep .wsClosed (some "tok") exConnected)).reconnectDelay = 2000 ∧
    (chanStep .wsOpened (some "tok")
      { exConnected with conn := .connecting, reconnectDelay := 16000 }).reconnectDelay
      = 1000 := by
  refine ⟨(backoff_bounded_reset_on_open (some "tok") exConnected).1 (by decide) |>.1,
    ((backoff_bounded_reset_on_open (some "tok") exConnected).2.1 (by decide)
      (by decide)).2,
    ?_, (backoff_bounded_reset_on_open (some "tok")
      { exConnected with conn := .connecting, reconnectDelay := 16000 }).2.2.2.1
      (by decide)⟩
  have h := (backoff_bounded_reset_on_open (some "tok")
    (chanStep .wsClosed (some "tok") exConnected)).2.2.1 1000 (by decide)
  calc (chanStep .timerFired (some "tok")
      (chanStep .wsClosed (some "tok") exConnected)).reconnectDelay
      = min ((chanStep .wsClosed (some "tok") exConnected).reconnectDelay * 2) 30000 :=
        h.1
    _ = 2000 := by decide

-- ─────────────────────── Dedup helper lemmas (C3) ─────────────────────────

theorem mergeMessage_of_dup (prev : List ChatMessage) (m : ChatMessage)
    (h : ∃ x ∈ prev, x.id = m.id) : mergeMessage prev m = prev := by
  unfold mergeMessage
  split
  · rfl
  · rename_i hc
    exfalso
    apply hc
    rw [List.any_eq_true]
    obtain ⟨x, hx, hid⟩ := h
    exact ⟨x, hx, decide_eq_true hid⟩

theorem mergeMessage_of_fresh (prev : List ChatMessage) (m : ChatMessage)
    (h : ∀ x ∈ prev, x.id ≠ m.id) : mergeMessage prev m = prev ++ [m] := by
  unfold mergeMessage
  split
  · rename_i hc
    rw [List.any_eq_true] at hc
    obtain ⟨x, hx, hid⟩ := hc
    exact absurd (of_decide_eq_true hid) (h x hx)
  · rfl

theorem ids_nodup_append_single {α β : Type} (l : List α) (a : α) (f : α → β)
    (h : (l.map f).Nodup) (hfresh : ∀ x ∈ l, f x ≠ f a) :
    ((l ++ [a]).map f).Nodup := by
  rw [List.map_append, List.nodup_append]
  refine ⟨h, List.nodup_singleton _, ?_⟩
  intro b hb hb2
  simp only [List.map_cons, List.map_nil, List.mem_singleton] at hb2
  subst hb2
  obtain ⟨x, hx, hfx⟩ := List.mem_map.mp hb
  exact hfresh x hx hfx

theorem mergeMessage_ids_nodup (prev : List ChatMessage) (m : ChatMessage)
    (h : (prev.map (fun x => x.id)).Nodup) :
    ((mergeMessage prev m).map (fun x => x.id)).Nodup := by
  by_cases hd : ∃ x ∈ prev, x.id = m.id
  · rw [mergeMessage_of_dup prev m hd]
    exact h
  · push_neg at hd
    rw [mergeMessage_of_fresh prev m hd]
    exact ids_nodup_append_single prev m _ h hd

theorem mergeAction_cons (x : AgentAction) (xs : List AgentAction) (a : AgentAction) :
    mergeAction (x :: xs) a =
      if x.id = a.id then a :: xs else x :: mergeAction xs a := by
  by_cases hx : x.id = a.id
  · simp [mergeAction, findIdxOfId, hx]
  · simp only [mergeAction, findIdxOfId, hx, if_false]
    cases h : findIdxOfId a.id xs with
    | none => simp [h]
    | some i => simp [h, List.set]

theorem mergeAction_of_fresh (prev : List AgentAction) (a : AgentAction)
    (h : ∀ x ∈ prev, x.id ≠ a.id) : mergeAction prev a = prev ++ [a] := by
  induction prev with
  | nil => rfl
  | cons x xs ih =>
    rw [mergeAction_cons, if_neg (h x (by simp)), ih (fun y hy => h y (by simp [hy]))]
    rfl

theorem mergeAction_ids_of_dup (prev : List AgentAction) (a : AgentAction)
    (h : ∃ x ∈ prev, x.id = a.id) :
    (mergeAction prev a).map (fun x => x.id) = prev.map (fun x => x.id) ∧
      a ∈ mergeAction prev a := by
  induction prev with
  | nil => simp at h
  | cons x xs ih =>
    rw [mergeAction_cons]
    by_cases hx : x.id = a.id
    · rw [if_pos hx]
      exact ⟨by simp [hx], by simp⟩
    · rw [if_neg hx]
      have h' : ∃ y ∈ xs, y.id = a.id := by
        obtain ⟨y, hy, hid⟩ := h
        rcases List.mem_cons.mp hy with h1 | h2
        · subst h1
          exact absurd hid hx
        · exact ⟨y, h2, hid⟩
      obtain ⟨ih1, ih2⟩ := ih h'
      exact ⟨by simp [ih1], by simp [ih2]⟩

theorem mergeAction_ids_nodup (prev : List AgentAction) (a : AgentAction)
    (h : (prev.map (fun x => x.id)).Nodup) :
    ((mergeAction prev a).map (fun x => x.id)).Nodup := by
  by_cases hd : ∃ x ∈ prev, x.id = a.id
  · rw [(mergeAction_ids_of_dup prev a hd).1]
    exact h
  · push_neg at hd
    rw [mergeAction_of_fresh prev a hd]
    exact ids_nodup_append_single prev a _ h hd

theorem map_preserving_ids_nodup (l : List AgentAction) (g : AgentAction → AgentAction)
    (hg : ∀ x, (g x).id = x.id) (h : (l.map (fun x => x.id)).Nodup) :
    ((l.map g).map (fun x => x.id)).Nodup := by
  rw [List.map_map]
  have he : ((fun x : AgentAction => x.id) ∘ g) = fun x : AgentAction => x.id :=
    funext fun x => hg x
  rw [he]
  exact h

theorem handleWsEvent_preserves_nodup (now : Nat) (ev : WsEvent) (s : ViewState)
    (hm : msgIdsNodup s) (ha : actIdsNodup s) :
    msgIdsNodup (handleWsEvent now ev s).1 ∧ actIdsNodup (handleWsEvent now ev s).1 := by
  simp only [msgIdsNodup, actIdsNodup] at hm ha ⊢
  unfold handleWsEvent
  repeat' split
  all_goals
    constructor <;>
      first
        | exact hm
        | exact ha
        | exact mergeMessage_ids_nodup _ _ hm
        | exact mergeAction_ids_nodup _ _ ha
        | exact map_preserving_ids_nodup _ _
            (fun x => by by_cases hx : x.id = (by assumption : String) <;> simp [hx]) ha

theorem applyWsEvents_preserves_nodup (evs : List (Nat × WsEvent)) (s : ViewState)
    (hm : msgIdsNodup s) (ha : actIdsNodup s) :
    msgIdsNodup (applyWsEvents evs s) ∧ actIdsNodup (applyWsEvents evs s) := by
  induction evs generalizing s with
  | nil => exact ⟨hm, ha⟩
  | cons p rest ih =>
    have h1 := handleWsEvent_preserves_nodup p.1 p.2 s hm ha
    exact ih _ h1.1 h1.2

/-- C3: chat-message events append only when no message with the same id
is present (otherwise the list is unchanged); action events replace the
action with the same id in place (keeping the id sequence) or append when
absent; consequently, from duplicate-free snapshots, no sequence of
received WebSocket events — nor the send-message response merge — ever
produces two list entries with the same id. -/
theorem ws_merge_dedup_by_id :
    (∀ prev m, (∃ x ∈ prev, x.id = m.id) → mergeMessage prev m = prev) ∧
    (∀ prev m, (∀ x ∈ prev, x.id ≠ m.id) → mergeMessage prev m = prev ++ [m]) ∧
    (∀ prev a, (∀ x ∈ prev, x.id ≠ a.id) → mergeAction prev a = prev ++ [a]) ∧
    (∀ prev a, (∃ x ∈ prev, x.id = a.id) →
      (mergeAction prev a).map (fun x => x.id) = prev.map (fun x => x.id) ∧
      a ∈ mergeAction prev a) ∧
    (∀ evs s, msgIdsNodup s → actIdsNodup s →
      msgIdsNodup (applyWsEvents evs s) ∧ actIdsNodup (applyWsEvents evs s)) ∧
    (∀ prev m, (prev.map (fun x : ChatMessage => x.id)).Nodup →
      ((sendMessageMerge prev m).map (fun x => x.id)).Nodup) :=
  ⟨mergeMessage_of_dup, mergeMessage_of_fresh, mergeAction_of_fresh,
   mergeAction_ids_of_dup, applyWsEvents_preserves_nodup,
   fun prev m h => mergeMessage_ids_nodup prev m h⟩

/-- Witness for C3: a duplicate chat message is dropped and the invariant
holds after a concrete event sequence. -/
theorem ws_merge_dedup_witness :
    mergeMessage [exMsg] exMsg = [exMsg] ∧
    mergeMessage [exMsg2] exMsg = [exMsg2, exMsg] ∧
    msgIdsNodup (applyWsEvents [(7, exChatEvent), (8, exChatEvent), (9, exActionEvent)]
      exViewState) ∧
    actIdsNodup (applyWsEvents [(7, exChatEvent), (8, exChatEvent), (9, exActionEvent)]
      exViewState) := by
  refine ⟨ws_merge_dedup_by_id.1 [exMsg] exMsg ⟨exMsg, by simp, rfl⟩,
    ws_merge_dedup_by_id.2.1 [exMsg2] exMsg ?_, ?_, ?_⟩
  · intro x hx
    simp only [List.mem_singleton] at hx
    subst hx
    decide
  · exact (ws_merge_dedup_by_id.2.2.2.2.1
      [(7, exChatEvent), (8, exChatEvent), (9, exActionEvent)] exViewState
      (by simp [msgIdsNodup, exViewState]) (by simp [actIdsNodup, exViewState])).1
  · exact (ws_merge_dedup_by_id.2.2.2.2.1
      [(7, exChatEvent), (8, exChatEvent), (9, exActionEvent)] exViewState
      (by simp [msgIdsNodup, exViewState]) (by simp [actIdsNodup, exViewState])).2

/-- C9 counterexample: a `diagnosis_ready` event carrying no payload
fields at all (its `confidence_score` is missing) still sets the
diagnosis banner, so a recognized event with a missing payload field can
change view state. -/
theorem missing_payload_still_changes_state :
    exViewState.diagnosisBanner = none ∧
    (handleWsEvent 0 exDiagEvent exViewState).1.diagnosisBanner =
      some "Diagnosis complete" := by
  constructor
  · rfl
  · rfl

/-- C9 (amended): an event whose type is not one of the twelve recognized
tags leaves the whole view state unchanged and issues no effect; so does
a `message`/`chat_message` event without a message, an
`action`/`agent_action` event without an action, an
`issue_updated`/`status_update` event without an issue, and an
`action_started`/`action_completed`/`action_failed` event without an
action id.  (The banner events `diagnosis_ready`, `fix_complete` and
`fix_failed` set their banner even when their optional fields are
absent.) -/
theorem unrecognized_or_gated_events_frame (now : Nat) (ev : WsEvent) (s : ViewState) :
    (ev.type ∉ recognizedTypes → handleWsEvent now ev s = (s, [])) ∧
    ((ev.type = "message" ∨ ev.type = "chat_message") → ev.message = none →
      handleWsEvent now ev s = (s, [])) ∧
    ((ev.type = "action" ∨ ev.type = "agent_action") → ev.action = none →
      handleWsEvent now ev s = (s, [])) ∧
    ((ev.type = "issue_updated" ∨ ev.type = "status_update") → ev.issue = none →
      handleWsEvent now ev s = (s, [])) ∧
    ((ev.type = "action_started" ∨ ev.type = "action_completed" ∨
        ev.type = "action_failed") → ev.action_id = none →
      handleWsEvent now ev s = (s, [])) := by
  refine ⟨fun h => ?_, fun h hp => ?_, fun h hp => ?_, fun h hp => ?_, fun h hp => ?_⟩
  · simp only [recognizedTypes, List.mem_cons, List.not_mem_nil, or_false, not_or] at h
    obtain ⟨h1, h2, h3, h4, h5, h6, h7, h8, h9, h10, h11, h12⟩ := h
    simp [handleWsEvent, h1, h2, h3, h4, h5, h6, h7, h8, h9, h10, h11, h12]
  · rcases h with h | h <;> simp [handleWsEvent, h, hp]
  · rcases h with h | h <;> simp [handleWsEvent, h, hp]
  · rcases h with h | h <;> simp [handleWsEvent, h, hp]
  · rcases h with h | h | h <;> simp [handleWsEvent, h, hp]

/-- Witness for C9 (amended): an unknown event tag and a chat event with
no message leave the freshly mounted state untouched. -/
theorem unrecognized_event_frame_witness :
    handleWsEvent 3 exUnknownEvent exViewState = (exViewState, []) ∧
    handleWsEvent 3 { exChatEvent with message := none } exViewState =
      (exViewState, []) :=
  ⟨(unrecognized_or_gated_events_frame 3 exUnknownEvent exViewState).1 (by decide),
   (unrecognized_or_gated_events_frame 3 { exChatEvent with message := none }
      exViewState).2.1 (Or.inr rfl) rfl⟩

-- ─────────────────────── Kanban helper lemmas (C8) ────────────────────────

theorem mem_grouped {l : List Issue} {c : KanbanColumn} {i : Issue} :
    i ∈ grouped l c ↔ i ∈ l ∧ effectiveColumn i = c := by
  simp [grouped, List.mem_filter]

theorem mem_boardIssues {filterSite : String} {issues : List Issue} {i : Issue} :
    i ∈ boardIssues filterSite issues ↔
      i ∈ siteFiltered filterSite issues ∧ effectiveColumn i ≠ .dismissed := by
  simp [boardIssues, activeIssues, List.mem_filter]

theorem nondismissed_mem_boardColumns (c : KanbanColumn) (h : c ≠ .dismissed) :
    c ∈ boardColumns := by
  cases c <;> simp_all [boardColumns]

/-- C8: the kanban board groups purely by filtering on the (triage-
defaulted) column key: every non-dismissed issue passing the site filter
appears in exactly one of the eight board columns — the one equal to its
column — dismissed issues appear in none, the columns are pairwise
disjoint, and together they cover all board issues. -/
theorem kanban_board_partitions_issues (filterSite : String) (issues : List Issue) :
    (∀ i ∈ boardIssues filterSite issues,
      effectiveColumn i ∈ boardColumns ∧
      i ∈ grouped (boardIssues filterSite issues) (effectiveColumn i) ∧
      ∀ c, i ∈ grouped (boardIssues filterSite issues) c → c = effectiveColumn i) ∧
    (∀ i ∈ siteFiltered filterSite issues, effectiveColumn i = .dismissed →
      ∀ c, i ∉ grouped (boardIssues filterSite issues) c) ∧
    (∀ i, i ∈ boardIssues filterSite issues ↔
      ∃ c ∈ boardColumns, i ∈ grouped (boardIssues filterSite issues) c) ∧
    (∀ c₁ c₂, c₁ ≠ c₂ → ∀ i, i ∈ grouped (boardIssues filterSite issues) c₁ →
      i ∉ grouped (boardIssues filterSite issues) c₂) := by
  refine ⟨fun i hi => ?_, fun i hi hd c hc => ?_, fun i => ?_, fun c₁ c₂ hne i h1 h2 => ?_⟩
  · have hnd : effectiveColumn i ≠ .dismissed := (mem_boardIssues.mp hi).2
    exact ⟨nondismissed_mem_boardColumns _ hnd, mem_grouped.mpr ⟨hi, rfl⟩,
      fun c hc => (mem_grouped.mp hc).2.symm⟩
  · have hmem := (mem_grouped.mp hc).1
    exact (mem_boardIssues.mp hmem).2 hd
  · constructor
    · intro hi
      have hnd : effectiveColumn i ≠ .dismissed := (mem_boardIssues.mp hi).2
      exact ⟨effectiveColumn i, nondismissed_mem_boardColumns _ hnd,
        mem_grouped.mpr ⟨hi, rfl⟩⟩
    · rintro ⟨c, _, hc⟩
      exact (mem_grouped.mp hc).1
  · have e1 := (mem_grouped.mp h1).2
    have e2 := (mem_grouped.mp h2).2
    exact hne (e1 ▸ e2 ▸ rfl)

/-- Witness for C8 on a concrete issue list: the in-progress issue sits
exactly in its column, the null-column issue lands in triage, and the
dismissed issue is nowhere on the board. -/
theorem kanban_board_partitions_witness :
    exIssue ∈ grouped (boardIssues "" [exIssue, exDismissed, exNullCol]) .in_progress ∧
    exNullCol ∈ grouped (boardIssues "" [exIssue, exDismissed, exNullCol]) .triage ∧
    ¬ exDismissed ∈ grouped (boardIssues "" [exIssue, exDismissed, exNullCol]) .done := by
  refine ⟨?_, ?_, ?_⟩
  · exact ((kanban_board_partitions_issues "" [exIssue, exDismissed, exNullCol]).1
      exIssue (by decide)).2.1
  · exact ((kanban_board_partitions_issues "" [exIssue, exDismissed, exNullCol]).1
      exNullCol (by decide)).2.1
  · exact (kanban_board_partitions_issues "" [exIssue, exDismissed, exNullCol]).2.1
      exDismissed (by decide) (by decide) .done

-- ─────────────────────── Wizard helper lemma (C6) ─────────────────────────

theorem jsOr_ne_empty (m : Option String) (g : String) (hg : g ≠ "") :
    jsOr m g ≠ "" := by
  cases m with
  | none => exact hg
  | some s => by_cases hs : s = "" <;> simp [jsOr, hs, hg]

/-- C6: the connect-site wizard accumulates its state across the linear
steps and submits it as independent API calls in order — create the site,
then attach the SSH and optional extra credentials (against the site id
recorded by the create step), then trigger a health check — and each
step's failure keeps the wizard on that step with a non-empty inline
error, so the failed step can be retried. -/
theorem wizard_create_then_credentials_then_healthcheck :
    (∀ s siteId, jsTrim s.url ≠ "" →
      s.sshHost ≠ "" → s.sshUser ≠ "" → s.sshPassword ≠ "" →
      (handleUrlNext (.ok siteId) s).1.siteId = siteId ∧
      (handleUrlNext (.ok siteId) s).2 ++
        (handleSSHNext (.ok ()) (handleUrlNext (.ok siteId) s).1).2 ++
        (handleMoreCredsNext (.ok ())
          (handleSSHNext (.ok ()) (handleUrlNext (.ok siteId) s).1).1).2
      = ApiCall.createSite (handleUrlNext (.ok siteId) s).1.url
          (handleUrlNext (.ok siteId) s).1.name
        :: ApiCall.saveCredential siteId "ssh"
        :: (credTasks (handleUrlNext (.ok siteId) s).1.moreCreds siteId
            ++ [ApiCall.healthCheck siteId]) ∧
      (handleMoreCredsNext (.ok ())
        (handleSSHNext (.ok ()) (handleUrlNext (.ok siteId) s).1).1).1.step
        = .wizdone) ∧
    (∀ s m, jsTrim s.url ≠ "" →
      (handleUrlNext (.error m) s).1.step = s.step ∧
      (handleUrlNext (.error m) s).1.error ≠ "") ∧
    (∀ s m, s.sshHost ≠ "" → s.sshUser ≠ "" → s.sshPassword ≠ "" →
      (handleSSHNext (.error m) s).1.step = s.step ∧
      (handleSSHNext (.error m) s).1.error ≠ "") ∧
    (∀ s m, (handleMoreCredsNext (.error m) s).1.step = s.step ∧
      (handleMoreCredsNext (.error m) s).1.error ≠ "") := by
  refine ⟨fun s siteId hurl hh hu hp => ?_, fun s m hurl => ?_,
    fun s m hh hu hp => ?_, fun s m => ?_⟩
  · refine ⟨?_, ?_, ?_⟩ <;>
      simp [handleUrlNext, handleSSHNext, handleMoreCredsNext, runHealthCheck,
        hurl, hh, hu, hp]
  · constructor
    · simp [handleUrlNext, hurl]
    · simp only [handleUrlNext, hurl, if_neg]
      exact jsOr_ne_empty m _ (by decide)
  · constructor
    · simp [handleSSHNext, hh, hu, hp]
    · simp only [handleSSHNext, hh, hu, hp]
      exact jsOr_ne_empty m _ (by decide)
  · constructor
    · simp [handleMoreCredsNext]
    · simp only [handleMoreCredsNext]
      exact jsOr_ne_empty m _ (by decide)

/-- Witness for C6 on a concrete wizard: the full happy-path call trace
and a failing create that stays on the URL step with an inline error. -/
theorem wizard_sequence_witness :
    (handleUrlNext (.ok "site-9") exWizard).2 ++
      (handleSSHNext (.ok ()) (handleUrlNext (.ok "site-9") exWizard).1).2 ++
      (handleMoreCredsNext (.ok ())
        (handleSSHNext (.ok ()) (handleUrlNext (.ok "site-9") exWizard).1).1).2
      = [ApiCall.createSite "https://example.com" "example.com",
         ApiCall.saveCredential "site-9" "ssh",
         ApiCall.healthCheck "site-9"] ∧
    (handleUrlNext (.error (some "Site already exists")) exWizard).1.step = .url ∧
    (handleUrlNext (.error (some "Site already exists")) exWizard).1.error ≠ "" := by
  have h1 := (wizard_create_then_credentials_then_healthcheck.1 exWizard "site-9"
    (by decide) (by decide) (by decide) (by decide)).2.1
  have h2 := wizard_create_then_credentials_then_healthcheck.2.1 exWizard
    (some "Site already exists") (by decide)
  refine ⟨?_, h2.1, h2.2⟩
  rw [h1]
  decide

end SiteDoc
